import Mathlib

/-!
Verification development for the classroom-simulator game core.

The definitions below are a shallow embedding of the TypeScript source:

* `useGameController.ts` — slide navigation (`nextSlide`, `previousSlide`,
  `selectSlideByIndex`), host-alert management (`clearHostAlert`) and the
  idempotent auto-processing of consequence slides
  (`processConsequenceSlideAuto`).
* `GameSessionManager.ts` — session lifecycle (`resetSessionProgress`,
  `finalizeDraftSession`, `updateSession`).
* `useTeamDataManager.ts` — the team-data reconciler
  (`resetTeamDecisionInDb`, the decisions fetch/structuring and the
  round-data feed handler).

External asynchronous calls are modelled by threading their outcome as an
explicit parameter (`Option String`: `none` is success, `some e` a failure
carrying the error message), and React `setState` updates by explicit state
passing on a `CtrlState` record.  Supabase rows are modelled as association
lists.
-/

namespace ClassroomSim

/-- One slide of the immutable slide sequence (`Slide` in `@shared/types`).
Only the fields the game controller reads are modelled. -/
structure Slide where
  id : Nat
  type : String
  interactive_data_key : Option String
  deriving DecidableEq, Repr

/-- The immutable slide sequence (`GameStructure` in `@shared/types`). -/
structure GameStructure where
  slides : List Slide
  deriving DecidableEq, Repr

/-- Opaque wizard/draft payload (`Partial<NewGameData>` stored in
`wizard_state`); modelled as an opaque key/value list. -/
def WizardState : Type := List (String × String)

instance : DecidableEq WizardState := by
  unfold WizardState; infer_instance

/-- A session record (`GameSession` in `@shared/types`). -/
structure GameSession where
  id : String
  name : String
  host_id : String
  status : String
  game_version : String
  current_slide_index : Int
  is_playing : Bool
  is_complete : Bool
  host_notes : List (Int × String)
  wizard_state : Option WizardState
  class_name : Option String
  grade_level : Option String
  deriving DecidableEq

/-- A partial update payload (`Partial<GameSessionInsert>`): `none` means the
field is absent from the update object. -/
structure SessionUpdate where
  name : Option String := none
  status : Option String := none
  game_version : Option String := none
  current_slide_index : Option Int := none
  is_playing : Option Bool := none
  is_complete : Option Bool := none
  host_notes : Option (List (Int × String)) := none
  wizard_state : Option (Option WizardState) := none
  class_name : Option (Option String) := none
  grade_level : Option (Option String) := none
  deriving DecidableEq

/-- Merge a partial update into a session record, as the session store's
`update(id, partialFields)` does field-wise. -/
def applySessionUpdate (s : GameSession) (u : SessionUpdate) : GameSession :=
  { id := s.id
    host_id := s.host_id
    name := u.name.getD s.name
    status := u.status.getD s.status
    game_version := u.game_version.getD s.game_version
    current_slide_index := u.current_slide_index.getD s.current_slide_index
    is_playing := u.is_playing.getD s.is_playing
    is_complete := u.is_complete.getD s.is_complete
    host_notes := u.host_notes.getD s.host_notes
    wizard_state := u.wizard_state.getD s.wizard_state
    class_name := u.class_name.getD s.class_name
    grade_level := u.grade_level.getD s.grade_level }

/-- A host-facing alert (`{ title, message }`). -/
structure HostAlert where
  title : String
  message : String
  deriving DecidableEq

/-- The constant `ALL_SUBMIT_ALERT_TITLE` from `useGameController.ts`. -/
def ALL_SUBMIT_ALERT_TITLE : String := "All Teams Have Submitted!"

/-- The game controller's client-side state: the cached session
(`dbSession`), the processed-consequence-slide set
(`processedConsequenceSlidesRef`), the current host alert and the
`allTeamsAlertDismissed` flag. -/
structure CtrlState where
  dbSession : Option GameSession
  processedConsequenceSlides : Finset Nat
  currentHostAlert : Option HostAlert
  allTeamsAlertDismissed : Bool
  deriving DecidableEq

/-- A call to `sessionManager.updateSession(sessionId, updates)`. -/
def PersistCall : Type := String × SessionUpdate

instance : DecidableEq PersistCall := by
  unfold PersistCall; infer_instance

/-- The update object `{current_slide_index: i}` used by every navigation
path. -/
def indexUpdate (i : Int) : SessionUpdate := { current_slide_index := some i }

/-- JavaScript truthiness of an optional string field (`undefined`, `null`
and `""` are falsy). -/
def optStrTruthy : Option String → Bool
  | none => false
  | some s => s != ""

/-- Model of `String.prototype.startsWith`: `pre` is a prefix of `s`
(computable model of `.startsWith(...)`). -/
def jsStartsWith (s pre : String) : Bool := pre.data.isPrefixOf s.data

/-- The length expression `gameStructure?.slides.length ?? d`. -/
def slidesLenD (gs? : Option GameStructure) (d : Nat) : Nat :=
  match gs? with
  | some g => g.slides.length
  | none => d

/-- The lookup `gameStructure.slides[idx]` under JavaScript indexing (out-of-range and
negative indices give `undefined`). -/
def slideAt (gs? : Option GameStructure) (idx : Int) : Option Slide :=
  match gs? with
  | none => none
  | some g => if idx < 0 then none else g.slides[idx.toNat]?

/-! ### Consequence auto-processing (`useGameController.ts` lines 87–122)

One evaluation of the auto-processing effect body for the current slide.
`outcome` is the result of the external `processConsequenceSlide` call
(`none` = resolved, `some e` = rejected with message `e`); the second
component counts how many times the external processor was invoked. -/

/-- One evaluation of `processConsequenceSlideAuto` for slide `slide`. -/
def processConsequenceSlideAuto (slide : Slide) (outcome : Option String)
    (st : CtrlState) : CtrlState × Nat :=
  if slide.type = "consequence_reveal" then
    if slide.id ∈ st.processedConsequenceSlides then (st, 0)
    else
      -- mark as processed BEFORE processing to prevent re-entry
      let st1 := { st with
        processedConsequenceSlides := insert slide.id st.processedConsequenceSlides }
      match outcome with
      | none => (st1, 1)
      | some e =>
          -- remove from processed set on error so it can be retried
          ({ st1 with
              processedConsequenceSlides := st1.processedConsequenceSlides.erase slide.id
              currentHostAlert := some
                { title := "Processing Error"
                  message := "Failed to process consequence slide: " ++ e } }, 1)
  else (st, 0)

/-- A sequence of evaluations of the auto-processing effect for the same
slide (re-renders / polling within one session load), with the external
outcomes listed; returns the final state and the total number of external
invocations. -/
def evalConsequenceSeq (slide : Slide) : List (Option String) → CtrlState →
    CtrlState × Nat
  | [], st => (st, 0)
  | o :: os, st =>
      let r := processConsequenceSlideAuto slide o st
      let rest := evalConsequenceSeq slide os r.1
      (rest.1, r.2 + rest.2)

/-- The session-change effect (`useGameController.ts` lines 37–42): the
processed set is cleared exactly when the active session identity changes. -/
def resetProcessedOnSessionChange (initialId dbId : Option String)
    (processed : Finset Nat) : Finset Nat :=
  if initialId ≠ dbId then ∅ else processed

/-! ### Slide navigation (`useGameController.ts` lines 125–244)

Each navigation callback is modelled as a function of the game structure,
the outcomes of the external calls it may make, and the controller state.
The second component of the result collects the `updateSession` persistence
calls made, in order. -/

/-- The navigation tail of `nextSlide` (lines 173–195): compute
`nextIndex`/`maxIndex`, persist if in range, update the cached session and
clear the alert-dismissal flag on success, raise a navigation alert on
persistence failure. -/
def nextSlideNav (gs? : Option GameStructure) (persistOutcome : Option String)
    (s : GameSession) (st : CtrlState) : CtrlState × List PersistCall :=
  let nextIndex := s.current_slide_index + 1
  let maxIndex := (slidesLenD gs? 1 : Int) - 1
  if nextIndex ≤ maxIndex then
    match persistOutcome with
    | none =>
        ({ st with
            dbSession := some { s with current_slide_index := nextIndex }
            allTeamsAlertDismissed := false },
          [(s.id, indexUpdate nextIndex)])
    | some e =>
        ({ st with currentHostAlert := some { title := "Navigation Error", message := e } },
          [(s.id, indexUpdate nextIndex)])
  else (st, [])

/-- The callback `nextSlide` (lines 150–195).  `finOutcome` is the result of the external
`processInteractiveSlide` call, consulted only when the current slide is
interactive; `persistOutcome` the result of the `updateSession` call. -/
def nextSlide (gs? : Option GameStructure) (finOutcome persistOutcome : Option String)
    (st : CtrlState) : CtrlState × List PersistCall :=
  match st.dbSession with
  | none => (st, [])
  | some s =>
    match slideAt gs? s.current_slide_index with
    | none => (st, [])
    | some slide =>
      if optStrTruthy slide.interactive_data_key && jsStartsWith slide.type "interactive_" then
        match finOutcome with
        | some e =>
            ({ st with
                currentHostAlert := some
                  { title := "Processing Error"
                    message := "Failed to process slide: " ++ e } }, [])
        | none => nextSlideNav gs? persistOutcome s st
      else nextSlideNav gs? persistOutcome s st

/-- The callback `previousSlide` (lines 197–220). -/
def previousSlide (persistOutcome : Option String) (st : CtrlState) :
    CtrlState × List PersistCall :=
  match st.dbSession with
  | none => (st, [])
  | some s =>
    let prevIndex := max (s.current_slide_index - 1) 0
    match persistOutcome with
    | none =>
        ({ st with
            dbSession := some { s with current_slide_index := prevIndex }
            allTeamsAlertDismissed := false },
          [(s.id, indexUpdate prevIndex)])
    | some e =>
        ({ st with currentHostAlert := some { title := "Navigation Error", message := e } },
          [(s.id, indexUpdate prevIndex)])

/-- The callback `selectSlideByIndex` (lines 222–244). -/
def selectSlideByIndex (gs? : Option GameStructure) (targetIndex : Int)
    (persistOutcome : Option String) (st : CtrlState) : CtrlState × List PersistCall :=
  match st.dbSession with
  | none => (st, [])
  | some s =>
    if targetIndex < 0 ∨ targetIndex ≥ (slidesLenD gs? 0 : Int) then (st, [])
    else
      match persistOutcome with
      | none =>
          ({ st with
              dbSession := some { s with current_slide_index := targetIndex }
              allTeamsAlertDismissed := false },
            [(s.id, indexUpdate targetIndex)])
      | some e =>
          ({ st with currentHostAlert := some { title := "Navigation Error", message := e } },
            [(s.id, indexUpdate targetIndex)])

/-- The callback `clearHostAlert` (lines 125–147): dismiss the current alert; if it was
the all-submitted alert, mark it dismissed and auto-advance one slide
(clamped), persisting the new index. -/
def clearHostAlert (gs? : Option GameStructure) (persistOutcome : Option String)
    (st : CtrlState) : CtrlState × List PersistCall :=
  match st.currentHostAlert, st.dbSession with
  | none, _ => (st, [])
  | some _, none => (st, [])
  | some alert, some s =>
    let st1 := { st with currentHostAlert := none }
    if alert.title = ALL_SUBMIT_ALERT_TITLE then
      let st2 := { st1 with allTeamsAlertDismissed := true }
      let nextIdx := min (s.current_slide_index + 1) ((slidesLenD gs? 1 : Int) - 1)
      match persistOutcome with
      | none =>
          ({ st2 with dbSession := some { s with current_slide_index := nextIdx } },
            [(s.id, indexUpdate nextIdx)])
      | some e =>
          ({ st2 with currentHostAlert := some { title := "Navigation Error", message := e } },
            [(s.id, indexUpdate nextIdx)])
    else (st1, [])

/-! ### Session lifecycle (`GameSessionManager.ts`)

The durable store is modelled as a `Db` record; `db.sessions.update`
(external Session Store adapter, §6: `update(id, partialFields) →
record|fails`) merges a partial update into the stored record and fails when
the record is absent. -/

/-- A team row as created by `db.teams.create`. -/
structure TeamRow where
  session_id : String
  name : String
  passcode : String
  deriving DecidableEq, Repr

/-- A `team_decisions` row; the payload is opaque to the reconciler. -/
structure DecisionRow where
  session_id : String
  team_id : String
  phase_id : String
  payload : String
  deriving DecidableEq, Repr

/-- The durable store: session records by id, team rows and decision rows. -/
structure Db where
  sessions : List (String × GameSession)
  teams : List TeamRow
  decisions : List DecisionRow
  deriving DecidableEq

instance {α β : Type} [DecidableEq α] [DecidableEq β] : DecidableEq (Except α β) :=
  fun a b =>
    match a, b with
    | .error x, .error y =>
        if h : x = y then isTrue (by rw [h])
        else isFalse (by intro hc; cases hc; exact h rfl)
    | .ok x, .ok y =>
        if h : x = y then isTrue (by rw [h])
        else isFalse (by intro hc; cases hc; exact h rfl)
    | .error _, .ok _ => isFalse (by intro hc; cases hc)
    | .ok _, .error _ => isFalse (by intro hc; cases hc)

/-- The method `GameSessionManager.updateSession`: rejects an empty or `'new'` session
id, then merges the partial update into the stored record (failing when the
record is absent) and returns the updated record. -/
def updateSession (sessionId : String) (updates : SessionUpdate) (db : Db) :
    Except String (GameSession × Db) :=
  if sessionId = "" ∨ sessionId = "new" then
    .error "Cannot update session: Invalid session ID"
  else
    match db.sessions.lookup sessionId with
    | none => .error ("Failed to update session with ID '" ++ sessionId ++ "'.")
    | some s =>
        let s' := applySessionUpdate s updates
        .ok (s', { db with
          sessions := db.sessions.map fun p => if p.1 = sessionId then (sessionId, s') else p })

/-- The method `GameSessionManager.resetSessionProgress` (lines 248–258). -/
def resetSessionProgress (sessionId : String) (db : Db) :
    Except String (GameSession × Db) :=
  updateSession sessionId
    { current_slide_index := some 0
      is_playing := some false
      is_complete := some false
      host_notes := some []
      status := some "active"
      wizard_state := some none } db

/-- One entry of `teams_config`. -/
structure TeamConfig where
  name : String
  passcode : String
  deriving DecidableEq, Repr

/-- The wizard's final payload (`NewGameData`), restricted to the fields
`finalizeDraftSession` reads. -/
structure NewGameData where
  name : String
  class_name : Option String
  grade_level : Option String
  game_version : String
  teams_config : Option (List TeamConfig)
  num_teams : Int
  deriving DecidableEq, Repr

/-- Model of `String.prototype.trim` (computable: strip whitespace from both
ends of the character list). -/
def jsTrim (s : String) : String :=
  String.mk (((s.data.dropWhile Char.isWhitespace).reverse.dropWhile
    Char.isWhitespace).reverse)

/-- The expression `finalGameData.class_name?.trim() || null`. -/
def trimmedOrNull : Option String → Option String
  | none => none
  | some s => if jsTrim s = "" then none else some (jsTrim s)

/-- The expression `x || null` for an optional string (empty string is falsy). -/
def orNull : Option String → Option String
  | none => none
  | some s => if s = "" then none else some s

/-- The passcode value drawn for one synthesized team:
`Math.floor(1000 + Math.random() * 9000)`, with the `Math.random()` draw
`r ∈ [0, 1)` modelled as a rational. -/
def drawPasscode (r : ℚ) : Int := ⌊(1000 : ℚ) + r * 9000⌋

/-- The team row synthesized for index `i` when no explicit team list is
given: name `` `Team ${String.fromCharCode(65 + i)}` ``, passcode the random
draw rendered in decimal. -/
def defaultTeamRow (sessionId : String) (rands : Nat → ℚ) (i : Nat) : TeamRow :=
  { session_id := sessionId
    name := "Team ".push (Char.ofNat (65 + i))
    passcode := toString (drawPasscode (rands i)) }

/-- The method `GameSessionManager.finalizeDraftSession` (lines 67–103): transition the
draft to active (setting name/class/grade/version and clearing
`wizard_state`), then provision teams — the explicit `teams_config` when
non-empty, otherwise `num_teams` synthesized teams.  `defaultName` stands
for the generated `` `Game Session - ${date}` `` fallback and `rands` for
the stream of `Math.random()` draws. -/
def finalizeDraftSession (sessionId : String) (finalGameData : NewGameData)
    (defaultName : String) (rands : Nat → ℚ) (db : Db) :
    Except String (GameSession × Db) :=
  match updateSession sessionId
    { status := some "active"
      name := some (if jsTrim finalGameData.name = "" then defaultName
                    else jsTrim finalGameData.name)
      class_name := some (trimmedOrNull finalGameData.class_name)
      grade_level := some (orNull finalGameData.grade_level)
      game_version := some finalGameData.game_version
      wizard_state := some none } db with
  | .error e => .error ("Failed to finalize game session: " ++ e)
  | .ok (updatedSession, db1) =>
    let teamsToCreate := finalGameData.teams_config.getD []
    if teamsToCreate.length > 0 then
      let rows := teamsToCreate.map fun tc =>
        ({ session_id := sessionId, name := tc.name, passcode := tc.passcode } : TeamRow)
      .ok (updatedSession, { db1 with teams := db1.teams ++ rows })
    else if finalGameData.num_teams > 0 then
      let rows := (List.range finalGameData.num_teams.toNat).map
        (defaultTeamRow sessionId rands)
      .ok (updatedSession, { db1 with teams := db1.teams ++ rows })
    else
      .ok (updatedSession, db1)

/-! ### Team data reconciler (`useTeamDataManager.ts`)

The in-memory projections are JavaScript objects of objects
(`Record<string, Record<string, TeamDecision>>` and
`Record<string, Record<number, TeamRoundData>>`); they are modelled as
nested association lists, with assignment to an absent key appending the
entry and assignment to a present key replacing its value in place. -/

/-- Association-list lookup (`m[key]`). -/
def alookup {κ α : Type} [DecidableEq κ] : List (κ × α) → κ → Option α
  | [], _ => none
  | p :: rest, key => if p.1 = key then some p.2 else alookup rest key

/-- Association-list key removal (`delete m[key]`). -/
def eraseKey {κ α : Type} [DecidableEq κ] : List (κ × α) → κ → List (κ × α)
  | [], _ => []
  | p :: rest, key => if p.1 = key then eraseKey rest key else p :: eraseKey rest key

/-- Assignment `inner[key] = v` on a JavaScript object: replace in place
when the key is present, append otherwise. -/
def upsertInner {κ α : Type} [DecidableEq κ] (inner : List (κ × α)) (key : κ) (v : α) :
    List (κ × α) :=
  if (alookup inner key).isSome then
    inner.map fun p => if p.1 = key then (key, v) else p
  else inner ++ [(key, v)]

/-- Assignment `m[k1][k2] = v` on a nested object, creating the empty inner
object first when `m[k1]` is absent. -/
def upsert2 {κ₁ κ₂ α : Type} [DecidableEq κ₁] [DecidableEq κ₂]
    (m : List (κ₁ × List (κ₂ × α))) (k₁ : κ₁) (k₂ : κ₂) (v : α) :
    List (κ₁ × List (κ₂ × α)) :=
  match alookup m k₁ with
  | none => m ++ [(k₁, [(k₂, v)])]
  | some _ => m.map fun p => if p.1 = k₁ then (p.1, upsertInner p.2 k₂ v) else p

/-- Nested lookup `m[k₁]?.[k₂]`. -/
def lookup2 {κ₁ κ₂ α : Type} [DecidableEq κ₁] [DecidableEq κ₂]
    (m : List (κ₁ × List (κ₂ × α))) (k₁ : κ₁) (k₂ : κ₂) : Option α :=
  (alookup m k₁).bind fun inner => alookup inner k₂

/-- The `teamDecisions` projection, keyed by team then phase. -/
def DecisionsMap : Type := List (String × List (String × DecisionRow))

instance : DecidableEq DecisionsMap := by
  unfold DecisionsMap; infer_instance

/-- The structuring step of `fetchTeamDecisionsForSession` (lines 407–413):
group the fetched rows as `structured[team_id][phase_id] = decision`. -/
def structureDecisions (rows : List DecisionRow) : DecisionsMap :=
  rows.foldl (fun m d => upsert2 m d.team_id d.phase_id d) []

/-- The optimistic `setTeamDecisions` updater inside `resetTeamDecisionInDb`
(lines 476–487): if the (team, phase) entry exists, delete it, pruning the
team entry entirely when it has no remaining phases. -/
def applyLocalReset (m : DecisionsMap) (teamId phaseId : String) : DecisionsMap :=
  match alookup m teamId with
  | none => m
  | some inner =>
    if (alookup inner phaseId).isSome then
      let inner' := eraseKey inner phaseId
      if inner'.isEmpty then eraseKey m teamId
      else m.map fun p => if p.1 = teamId then (p.1, inner') else p
    else m

/-- Modelled from the spec: `db.decisions.delete(sessionId, teamId,
phaseId)` is defined in the repository's Supabase service layer
(`@shared/services/supabase`), which is not among the provided sources.
Per §4.3, "the external delete operation must itself be scoped by phase so
that a same-team, same-round record stored under a different logical key
(notably 'immediate purchase') is unaffected": it deletes exactly the
decision rows matching all three of session, team and phase. -/
def dbDecisionsDelete (db : Db) (sessionId teamId phaseId : String) : Db :=
  { db with
      decisions := db.decisions.filter
        fun d => ¬(d.session_id = sessionId ∧ d.team_id = teamId ∧ d.phase_id = phaseId) }

/-- The rows fetched by `db.decisions.getBySession(sessionId)`. -/
def decisionsBySession (db : Db) (sessionId : String) : List DecisionRow :=
  db.decisions.filter fun d => d.session_id = sessionId

/-- The result of a `resetTeamDecisionInDb` call: the store after the
phase-scoped delete, the projection after the optimistic in-memory removal,
and the projection after the forced decisions reload that follows it. -/
structure ResetOutcome where
  db : Db
  localProjection : DecisionsMap
  finalProjection : DecisionsMap
  deriving DecidableEq

/-- The function `resetTeamDecisionInDb` (lines 455–496): precondition check on the three
identifiers, phase-scoped delete in the store, optimistic local removal,
then a forced refresh of the decisions projection from the store. -/
def resetTeamDecisionInDb (db : Db) (sessionId teamId phaseId : String)
    (m : DecisionsMap) : Except String ResetOutcome :=
  if sessionId = "" ∨ teamId = "" ∨ phaseId = "" then
    .error "Missing session, team, or phase ID for reset."
  else
    let db' := dbDecisionsDelete db sessionId teamId phaseId
    .ok { db := db'
          localProjection := applyLocalReset m teamId phaseId
          finalProjection := structureDecisions (decisionsBySession db' sessionId) }

/-- A `team_round_data` row (`TeamRoundData`); the KPI payload is opaque. -/
structure KpiRow where
  team_id : String
  round_number : Int
  payload : String
  deriving DecidableEq, Repr

/-- The `teamRoundData` projection, keyed by team then round number. -/
def KpiMap : Type := List (String × List (Int × KpiRow))

instance : DecidableEq KpiMap := by
  unfold KpiMap; infer_instance

/-- A change-feed event for the `team_round_data` table.  For
`INSERT`/`UPDATE` the handler reads `payload.new`; for `DELETE` it reads the
possibly-absent `payload.old`. -/
inductive KpiEvent where
  | insert (rec : KpiRow)
  | update (rec : KpiRow)
  | delete (old : Option KpiRow)
  deriving DecidableEq

/-- The `DELETE` branch of the round-data feed handler: remove the
(team, round) slot, pruning the team entry if it becomes empty. -/
def deleteKpiSlot (m : KpiMap) (o : KpiRow) : KpiMap :=
  match alookup m o.team_id with
  | none => m
  | some inner =>
    let inner' := eraseKey inner o.round_number
    if inner'.isEmpty then eraseKey m o.team_id
    else m.map fun p => if p.1 = o.team_id then (p.1, inner') else p

/-- The round-data feed handler (`useTeamDataManager.ts` lines 535–553):
insert/update events upsert the (team, round) slot directly from the event
payload; delete events remove that slot when the old record's team and round
are truthy. -/
def applyKpiEvent (m : KpiMap) : KpiEvent → KpiMap
  | .insert rec => upsert2 m rec.team_id rec.round_number rec
  | .update rec => upsert2 m rec.team_id rec.round_number rec
  | .delete old =>
    match old with
    | some o => if o.team_id ≠ "" ∧ o.round_number ≠ 0 then deleteKpiSlot m o else m
    | none => m

/-! ### Association-map lemmas -/

section MapLemmas

variable {κ κ₁ κ₂ α : Type} [DecidableEq κ] [DecidableEq κ₁] [DecidableEq κ₂]

theorem alookup_append (l₁ l₂ : List (κ × α)) (k : κ) :
    alookup (l₁ ++ l₂) k =
      match alookup l₁ k with
      | some v => some v
      | none => alookup l₂ k := by
  induction l₁ with
  | nil => simp [alookup]
  | cons p rest ih =>
      obtain ⟨a, b⟩ := p
      by_cases h : a = k <;> simp [alookup, h, ih]

theorem alookup_eraseKey (l : List (κ × α)) (key k : κ) :
    alookup (eraseKey l key) k = if k = key then none else alookup l k := by
  induction l with
  | nil => simp [alookup, eraseKey]
  | cons p rest ih =>
      obtain ⟨a, b⟩ := p
      by_cases h : a = key
      · subst h
        by_cases hk : k = a
        · subst hk
          simp [eraseKey, ih]
        · have : ¬(a = k) := fun h => hk h.symm
          simp [alookup, eraseKey, hk, this, ih]
      · by_cases hk : a = k
        · subst hk
          simp [alookup, eraseKey, h, fun h' : a = key => h h']
        · simp [alookup, eraseKey, h, hk, ih]

theorem eraseKey_eq_nil (l : List (κ × α)) (key : κ) (h : eraseKey l key = [])
    (k : κ) (hk : k ≠ key) : alookup l k = none := by
  induction l with
  | nil => simp [alookup]
  | cons p rest ih =>
      obtain ⟨a, b⟩ := p
      by_cases hp : a = key
      · subst hp
        have hrest : eraseKey rest a = [] := by simpa [eraseKey] using h
        have : ¬(a = k) := fun h' => hk (h' ▸ rfl)
        simp [alookup, this, ih hrest]
      · simp [eraseKey, hp] at h

theorem alookup_map_pairConst (m : List (κ × α)) (K : κ) (w : α) (t : κ) :
    alookup (m.map fun p => if p.1 = K then (K, w) else p) t =
      (alookup m t).map (fun v => if t = K then w else v) := by
  induction m with
  | nil => simp [alookup]
  | cons p rest ih =>
      obtain ⟨a, b⟩ := p
      by_cases hp : a = K
      · subst hp
        by_cases ht : t = a
        · subst ht
          simp [alookup, ih]
        · have : ¬(a = t) := fun h => ht h.symm
          simp [alookup, this, ht, ih]
      · by_cases ht : a = t
        · subst ht
          have : ¬(a = K) := hp
          simp [alookup, hp, this]
        · simp [alookup, hp, ht, ih]

theorem alookup_map_innerConst (m : List (κ × α)) (K : κ) (w : α) (t : κ) :
    alookup (m.map fun p => if p.1 = K then (p.1, w) else p) t =
      (alookup m t).map (fun v => if t = K then w else v) := by
  induction m with
  | nil => simp [alookup]
  | cons p rest ih =>
      obtain ⟨a, b⟩ := p
      by_cases hp : a = K
      · subst hp
        by_cases ht : t = a
        · subst ht
          simp [alookup, ih]
        · have : ¬(a = t) := fun h => ht h.symm
          simp [alookup, this, ht, ih]
      · by_cases ht : a = t
        · subst ht
          have : ¬(a = K) := hp
          simp [alookup, hp, this]
        · simp [alookup, hp, ht, ih]

theorem alookup_upsertInner_any (inner : List (κ × α)) (key : κ) (v : α) (k : κ) :
    alookup (upsertInner inner key v) k =
      if k = key then some v else alookup inner k := by
  unfold upsertInner
  by_cases hmem : (alookup inner key).isSome
  · rw [if_pos hmem, alookup_map_pairConst]
    by_cases hk : k = key
    · subst hk
      obtain ⟨w, hw⟩ := Option.isSome_iff_exists.mp hmem
      simp [hw]
    · cases alookup inner k <;> simp [hk]
  · rw [if_neg hmem, alookup_append]
    have hnone : alookup inner key = none := by
      cases h : alookup inner key
      · rfl
      · exact absurd (by simp [h]) hmem
    by_cases hk : k = key
    · subst hk
      simp [hnone, alookup]
    · have : ¬(key = k) := fun h => hk h.symm
      cases h : alookup inner k <;> simp [alookup, hk, this, h]

theorem alookup_upsert2_map (m : List (κ₁ × List (κ₂ × α))) (k₁ : κ₁) (k₂ : κ₂)
    (v : α) (t : κ₁) :
    alookup (m.map fun p => if p.1 = k₁ then (p.1, upsertInner p.2 k₂ v) else p) t =
      (alookup m t).map (fun w => if t = k₁ then upsertInner w k₂ v else w) := by
  induction m with
  | nil => simp [alookup]
  | cons p rest ih =>
      obtain ⟨a, b⟩ := p
      by_cases hp : a = k₁
      · subst hp
        by_cases ht : t = a
        · subst ht
          simp [alookup, ih]
        · have : ¬(a = t) := fun h => ht h.symm
          simp [alookup, this, ht, ih]
      · by_cases ht : a = t
        · subst ht
          have : ¬(a = k₁) := hp
          simp [alookup, hp, this]
        · simp [alookup, hp, ht, ih]

theorem lookup2_upsert2 (m : List (κ₁ × List (κ₂ × α))) (k₁ : κ₁) (k₂ : κ₂) (v : α)
    (t : κ₁) (r : κ₂) :
    lookup2 (upsert2 m k₁ k₂ v) t r =
      if t = k₁ ∧ r = k₂ then some v else lookup2 m t r := by
  unfold upsert2
  cases hm : alookup m k₁ with
  | none =>
      unfold lookup2
      rw [alookup_append]
      by_cases ht : t = k₁
      · subst ht
        simp only [hm, alookup, if_pos rfl]
        by_cases hr : r = k₂
        · subst hr
          simp [alookup]
        · have : ¬(k₂ = r) := fun h => hr h.symm
          simp [alookup, hr, this]
      · have : ¬(k₁ = t) := fun h => ht h.symm
        cases h : alookup m t with
        | none => simp [alookup, ht, this, h]
        | some inner => simp [ht, h]
  | some inner₀ =>
      unfold lookup2
      rw [alookup_upsert2_map]
      by_cases ht : t = k₁
      · subst ht
        simp only [hm, Option.map_some', Option.some_bind, if_true, ite_true,
          eq_self_iff_true, true_and]
        rw [alookup_upsertInner_any]
      · simp only [ht, if_false, false_and]
        cases alookup m t <;> simp [ht]

theorem alookup_upsert2_isSome (m : List (κ₁ × List (κ₂ × α))) (k₁ : κ₁) (k₂ : κ₂)
    (v : α) (t : κ₁) :
    (alookup (upsert2 m k₁ k₂ v) t).isSome = (t = k₁ ∨ (alookup m t).isSome) := by
  unfold upsert2
  cases hm : alookup m k₁ with
  | none =>
      rw [alookup_append]
      by_cases ht : t = k₁
      · subst ht
        simp [hm, alookup]
      · have : ¬(k₁ = t) := fun h => ht h.symm
        cases h : alookup m t <;> simp [alookup, ht, this, h]
  | some inner₀ =>
      rw [alookup_upsert2_map]
      by_cases ht : t = k₁
      · subst ht
        simp [hm]
      · cases h : alookup m t <;> simp [ht, h]

end MapLemmas

/-! ### Lemmas about the decisions structuring fold -/

theorem lookup2_foldl_filter (rows : List DecisionRow) (p : DecisionRow → Bool)
    (t q : String) (h : ∀ d ∈ rows, t = d.team_id → q = d.phase_id → p d = true) :
    ∀ m m' : DecisionsMap, lookup2 m t q = lookup2 m' t q →
      lookup2 ((rows.filter p).foldl (fun m d => upsert2 m d.team_id d.phase_id d) m) t q =
        lookup2 (rows.foldl (fun m d => upsert2 m d.team_id d.phase_id d) m') t q := by
  induction rows with
  | nil =>
      intro m m' hmm'
      simpa using hmm'
  | cons d ds ih =>
      intro m m' hmm'
      by_cases hp : p d = true
      · simp only [List.filter_cons, hp, if_true, List.foldl_cons]
        refine ih (fun e he ht hq => h e (List.mem_cons_of_mem _ he) ht hq) _ _ ?_
        rw [lookup2_upsert2, lookup2_upsert2, hmm']
      · have hnm : ¬(t = d.team_id ∧ q = d.phase_id) := by
          intro hand
          exact hp (h d (List.mem_cons_self _ _) hand.1 hand.2)
        simp only [List.filter_cons, hp, if_false, List.foldl_cons]
        refine ih (fun e he ht hq => h e (List.mem_cons_of_mem _ he) ht hq) _ _ ?_
        rw [lookup2_upsert2, if_neg hnm, hmm']

theorem lookup2_foldl_notmem (rows : List DecisionRow) (t q : String)
    (h : ∀ d ∈ rows, ¬(t = d.team_id ∧ q = d.phase_id)) :
    ∀ m : DecisionsMap,
      lookup2 (rows.foldl (fun m d => upsert2 m d.team_id d.phase_id d) m) t q =
        lookup2 m t q := by
  induction rows with
  | nil => intro m; rfl
  | cons d ds ih =>
      intro m
      simp only [List.foldl_cons]
      rw [ih (fun e he => h e (List.mem_cons_of_mem _ he)),
        lookup2_upsert2, if_neg (h d (List.mem_cons_self _ _))]

theorem alookup_foldl_isSome (rows : List DecisionRow) (t : String) :
    ∀ m : DecisionsMap,
      ((alookup (rows.foldl (fun m d => upsert2 m d.team_id d.phase_id d) m) t).isSome = true ↔
        (alookup m t).isSome = true ∨ ∃ d ∈ rows, d.team_id = t) := by
  induction rows with
  | nil =>
      intro m
      simp
  | cons d ds ih =>
      intro m
      simp only [List.foldl_cons]
      rw [ih]
      rw [alookup_upsert2_isSome]
      constructor
      · rintro (h | h)
        · rcases h with h | h
          · exact Or.inr ⟨d, List.mem_cons_self _ _, h.symm⟩
          · exact Or.inl h
        · obtain ⟨e, he, het⟩ := h
          exact Or.inr ⟨e, List.mem_cons_of_mem _ he, het⟩
      · rintro (h | ⟨e, he, het⟩)
        · exact Or.inl (Or.inr h)
        · rcases List.mem_cons.mp he with rfl | he'
          · exact Or.inl (Or.inl het.symm)
          · exact Or.inr ⟨e, he', het⟩

/-! ### Lemmas about the optimistic local reset -/

theorem lookup2_applyLocalReset_other (m : DecisionsMap) (tid p q : String)
    (hq : q ≠ p) : lookup2 (applyLocalReset m tid p) tid q = lookup2 m tid q := by
  unfold applyLocalReset
  split
  next heq => rfl
  next inner heq =>
    by_cases hp : (alookup inner p).isSome
    · rw [if_pos hp]
      dsimp only
      by_cases hnil : (eraseKey inner p).isEmpty
      · rw [if_pos hnil]
        have h1 : eraseKey inner p = [] := List.isEmpty_iff.mp hnil
        unfold lookup2
        rw [alookup_eraseKey, if_pos rfl, heq]
        simp [eraseKey_eq_nil inner p h1 q hq]
      · rw [if_neg hnil]
        unfold lookup2
        rw [alookup_map_innerConst, heq]
        simp only [Option.map_some', Option.some_bind, if_true, ite_true,
          eq_self_iff_true, true_and]
        rw [alookup_eraseKey, if_neg hq]
    · rw [if_neg hp]

theorem lookup2_applyLocalReset_self (m : DecisionsMap) (tid p : String) :
    lookup2 (applyLocalReset m tid p) tid p = none := by
  unfold applyLocalReset
  split
  next heq =>
    unfold lookup2
    rw [heq]
    rfl
  next inner heq =>
    by_cases hp : (alookup inner p).isSome
    · rw [if_pos hp]
      dsimp only
      by_cases hnil : (eraseKey inner p).isEmpty
      · rw [if_pos hnil]
        unfold lookup2
        rw [alookup_eraseKey, if_pos rfl]
        rfl
      · rw [if_neg hnil]
        unfold lookup2
        rw [alookup_map_innerConst, heq]
        simp only [Option.map_some', Option.some_bind, if_true, ite_true,
          eq_self_iff_true, true_and]
        rw [alookup_eraseKey, if_pos rfl]
    · rw [if_neg hp]
      unfold lookup2
      rw [heq]
      simp only [Option.some_bind]
      exact Option.not_isSome_iff_eq_none.mp hp

theorem applyLocalReset_prune (m : DecisionsMap) (tid p : String)
    (hnone : alookup (applyLocalReset m tid p) tid = none) :
    ∀ q, q ≠ p → lookup2 m tid q = none := by
  intro q hq
  unfold applyLocalReset at hnone
  split at hnone
  next heq =>
    unfold lookup2
    rw [heq]
    rfl
  next inner heq =>
    by_cases hp : (alookup inner p).isSome
    · rw [if_pos hp] at hnone
      dsimp only at hnone
      by_cases hnil : (eraseKey inner p).isEmpty
      · have h1 : eraseKey inner p = [] := List.isEmpty_iff.mp hnil
        unfold lookup2
        rw [heq]
        simp [eraseKey_eq_nil inner p h1 q hq]
      · rw [if_neg hnil] at hnone
        rw [alookup_map_innerConst, heq] at hnone
        simp at hnone
    · rw [if_neg hp] at hnone
      rw [heq] at hnone
      exact absurd hnone (by simp)

/-! ### Helper lemmas for consequence auto-processing -/

theorem processConsequence_skip (slide : Slide) (o : Option String) (st : CtrlState)
    (h : slide.type ≠ "consequence_reveal" ∨ slide.id ∈ st.processedConsequenceSlides) :
    processConsequenceSlideAuto slide o st = (st, 0) := by
  unfold processConsequenceSlideAuto
  rcases h with h | h
  · rw [if_neg h]
  · by_cases htype : slide.type = "consequence_reveal"
    · rw [if_pos htype, if_pos h]
    · rw [if_neg htype]

theorem evalConsequenceSeq_skip (slide : Slide) (os : List (Option String))
    (st : CtrlState)
    (h : slide.type ≠ "consequence_reveal" ∨ slide.id ∈ st.processedConsequenceSlides) :
    evalConsequenceSeq slide os st = (st, 0) := by
  induction os with
  | nil => rfl
  | cons o os ih =>
      unfold evalConsequenceSeq
      rw [processConsequence_skip slide o st h]
      dsimp only
      rw [ih]
      rfl

/-- C1: within one session load, the consequence processor is invoked at
most once per slide identifier: over any sequence of evaluations whose
first invocation does not fail, the total number of invocations is at most
one; in particular a second evaluation right after a successful one performs
zero additional invocations; and the processed set is not cleared while the
active session identity is unchanged. -/
theorem consequence_processor_at_most_once
    (slide : Slide) (st : CtrlState) (rest : List (Option String))
    (o₂ i : Option String) (processed : Finset Nat) :
    (evalConsequenceSeq slide (none :: rest) st).2 ≤ 1 ∧
    (processConsequenceSlideAuto slide o₂
        (processConsequenceSlideAuto slide none st).1).2 = 0 ∧
    resetProcessedOnSessionChange i i processed = processed := by
  refine ⟨?_, ?_, ?_⟩
  · by_cases htype : slide.type = "consequence_reveal"
    · by_cases hmem : slide.id ∈ st.processedConsequenceSlides
      · rw [evalConsequenceSeq_skip slide _ st (Or.inr hmem)]
        simp
      · unfold evalConsequenceSeq
        unfold processConsequenceSlideAuto
        rw [if_pos htype, if_neg hmem]
        dsimp only
        rw [evalConsequenceSeq_skip slide rest _
          (Or.inr (Finset.mem_insert_self slide.id st.processedConsequenceSlides))]
        simp
    · rw [evalConsequenceSeq_skip slide _ st (Or.inl htype)]
      simp
  · by_cases htype : slide.type = "consequence_reveal"
    · by_cases hmem : slide.id ∈ st.processedConsequenceSlides
      · rw [processConsequence_skip slide none st (Or.inr hmem),
          processConsequence_skip slide o₂ st (Or.inr hmem)]
      · unfold processConsequenceSlideAuto
        rw [if_pos htype, if_neg hmem]
        dsimp only
        rw [if_pos htype,
          if_pos (Finset.mem_insert_self slide.id st.processedConsequenceSlides)]
    · rw [processConsequence_skip slide none st (Or.inl htype),
        processConsequence_skip slide o₂ st (Or.inl htype)]
  · simp [resetProcessedOnSessionChange]

/-- C4: when the consequence processor fails, the processed mark for the
slide identifier is removed again (so the next evaluation within the same
session load re-invokes the processor) and a "Processing Error" host alert
is raised; when it succeeds, the mark remains set. -/
theorem consequence_failure_rolls_back_mark
    (slide : Slide) (st : CtrlState) (e : String) (o : Option String)
    (htype : slide.type = "consequence_reveal")
    (hmem : slide.id ∉ st.processedConsequenceSlides) :
    (processConsequenceSlideAuto slide (some e) st).2 = 1 ∧
    slide.id ∉ (processConsequenceSlideAuto slide (some e) st).1.processedConsequenceSlides ∧
    (processConsequenceSlideAuto slide (some e) st).1.currentHostAlert =
      some { title := "Processing Error"
             message := "Failed to process consequence slide: " ++ e } ∧
    (processConsequenceSlideAuto slide o
        (processConsequenceSlideAuto slide (some e) st).1).2 = 1 ∧
    slide.id ∈ (processConsequenceSlideAuto slide none st).1.processedConsequenceSlides := by
  have hfail : processConsequenceSlideAuto slide (some e) st =
      ({ st with
          processedConsequenceSlides :=
            (insert slide.id st.processedConsequenceSlides).erase slide.id
          currentHostAlert := some
            { title := "Processing Error"
              message := "Failed to process consequence slide: " ++ e } }, 1) := by
    unfold processConsequenceSlideAuto
    rw [if_pos htype, if_neg hmem]
  have hnotmem : slide.id ∉ (insert slide.id st.processedConsequenceSlides).erase slide.id :=
    Finset.not_mem_erase _ _
  refine ⟨by rw [hfail], by rw [hfail]; exact hnotmem, by rw [hfail], ?_, ?_⟩
  · rw [hfail]
    unfold processConsequenceSlideAuto
    rw [if_pos htype, if_neg hnotmem]
    cases o <;> rfl
  · unfold processConsequenceSlideAuto
    rw [if_pos htype, if_neg hmem]
    exact Finset.mem_insert_self _ _

/-- Sample fixtures used by the witnesses. -/
def sampleConsequenceSlide : Slide :=
  { id := 5, type := "consequence_reveal", interactive_data_key := none }

def emptyCtrlState : CtrlState :=
  { dbSession := none, processedConsequenceSlides := ∅
    currentHostAlert := none, allTeamsAlertDismissed := false }

theorem consequence_failure_rolls_back_mark_witness :
    sampleConsequenceSlide.type = "consequence_reveal" ∧
    sampleConsequenceSlide.id ∉ emptyCtrlState.processedConsequenceSlides ∧
    ((processConsequenceSlideAuto sampleConsequenceSlide (some "boom") emptyCtrlState).2 = 1 ∧
      sampleConsequenceSlide.id ∉
        (processConsequenceSlideAuto sampleConsequenceSlide (some "boom")
          emptyCtrlState).1.processedConsequenceSlides ∧
      (processConsequenceSlideAuto sampleConsequenceSlide (some "boom")
          emptyCtrlState).1.currentHostAlert =
        some { title := "Processing Error"
               message := "Failed to process consequence slide: " ++ "boom" } ∧
      (processConsequenceSlideAuto sampleConsequenceSlide none
          (processConsequenceSlideAuto sampleConsequenceSlide (some "boom")
            emptyCtrlState).1).2 = 1 ∧
      sampleConsequenceSlide.id ∈
        (processConsequenceSlideAuto sampleConsequenceSlide none
          emptyCtrlState).1.processedConsequenceSlides) :=
  ⟨rfl, by decide,
    consequence_failure_rolls_back_mark sampleConsequenceSlide emptyCtrlState
      "boom" none rfl (by decide)⟩

/-! ### Navigation fixtures -/

def twoSlideStructure : GameStructure :=
  { slides := [{ id := 0, type := "image", interactive_data_key := none },
               { id := 1, type := "image", interactive_data_key := none }] }

def sampleSession : GameSession :=
  { id := "s1", name := "n", host_id := "h", status := "active"
    game_version := "2.0_dd", current_slide_index := 1, is_playing := false
    is_complete := false, host_notes := [], wizard_state := none
    class_name := none, grade_level := none }

/-- Controller state sitting on the last slide of `twoSlideStructure`, with
the all-submitted alert already dismissed. -/
def lastSlideState : CtrlState :=
  { dbSession := some sampleSession, processedConsequenceSlides := ∅
    currentHostAlert := none, allTeamsAlertDismissed := true }

def interactiveStructure : GameStructure :=
  { slides := [{ id := 7, type := "interactive_invest", interactive_data_key := some "k" }] }

def firstSlideSession : GameSession :=
  { sampleSession with current_slide_index := 0 }

def firstSlideState : CtrlState :=
  { dbSession := some firstSlideSession, processedConsequenceSlides := ∅
    currentHostAlert := none, allTeamsAlertDismissed := true }

/-- C2: when the current slide is interactive (its type is in the
interactive category and it carries a decision key) and the external
interactive-slide finalizer fails, `nextSlide` aborts: the cached session —
in particular `current_slide_index` — is unchanged, no persistence call is
made, and a host-facing "Processing Error" alert is raised. -/
theorem interactive_finalizer_failure_aborts_navigation
    (gs? : Option GameStructure) (st : CtrlState) (s : GameSession) (slide : Slide)
    (e : String) (per : Option String)
    (hdb : st.dbSession = some s)
    (hslide : slideAt gs? s.current_slide_index = some slide)
    (hkey : optStrTruthy slide.interactive_data_key = true)
    (htype : jsStartsWith slide.type "interactive_" = true) :
    (nextSlide gs? (some e) per st).1.dbSession = some s ∧
    (nextSlide gs? (some e) per st).2 = [] ∧
    (nextSlide gs? (some e) per st).1.currentHostAlert =
      some { title := "Processing Error"
             message := "Failed to process slide: " ++ e } := by
  have hres : nextSlide gs? (some e) per st =
      ({ st with
          currentHostAlert := some
            { title := "Processing Error"
              message := "Failed to process slide: " ++ e } }, []) := by
    unfold nextSlide
    rw [hdb]
    dsimp only
    rw [hslide]
    dsimp only
    rw [hkey, htype]
    rfl
  rw [hres]
  exact ⟨hdb, rfl, rfl⟩

theorem interactive_finalizer_failure_aborts_navigation_witness :
    firstSlideState.dbSession = some firstSlideSession ∧
    slideAt (some interactiveStructure) firstSlideSession.current_slide_index =
      some { id := 7, type := "interactive_invest", interactive_data_key := some "k" } ∧
    ((nextSlide (some interactiveStructure) (some "db down") none firstSlideState).1.dbSession =
        some firstSlideSession ∧
      (nextSlide (some interactiveStructure) (some "db down") none firstSlideState).2 = [] ∧
      (nextSlide (some interactiveStructure) (some "db down") none firstSlideState).1.currentHostAlert =
        some { title := "Processing Error"
               message := "Failed to process slide: " ++ "db down" }) :=
  ⟨rfl, by decide,
    interactive_finalizer_failure_aborts_navigation (some interactiveStructure)
      firstSlideState firstSlideSession
      { id := 7, type := "interactive_invest", interactive_data_key := some "k" }
      "db down" none rfl (by decide) (by decide) (by decide)⟩

/-- C7 (counterexample): with the session already at the last slide and the
alert-dismissal flag set, `nextSlide` makes no persistence call and leaves
the flag set — contradicting the claim that the clamped index is persisted
and the flag cleared "including when the session is already at the last
slide". -/
theorem nextSlide_at_last_slide_is_noop :
    nextSlide (some twoSlideStructure) none none lastSlideState = (lastSlideState, []) ∧
    (nextSlide (some twoSlideStructure) none none lastSlideState).1.allTeamsAlertDismissed
      = true ∧
    (nextSlide (some twoSlideStructure) none none lastSlideState).2 = [] := by
  refine ⟨?_, ?_, ?_⟩ <;> decide

/-- C7 (amended): when no interactive finalization is required or it
succeeds and persistence succeeds, `nextSlide` increments the index by one,
persists it and clears the alert-dismissal flag — provided the next index is
still in range; when the session is already at the last slide the call is a
no-op: nothing is persisted and the flag keeps its value. -/
theorem nextSlide_increments_and_persists
    (gs? : Option GameStructure) (st : CtrlState) (s : GameSession) (slide : Slide)
    (hdb : st.dbSession = some s)
    (hslide : slideAt gs? s.current_slide_index = some slide) :
    (s.current_slide_index + 1 ≤ (slidesLenD gs? 1 : Int) - 1 →
      (nextSlide gs? none none st).1.dbSession =
        some { s with current_slide_index := s.current_slide_index + 1 } ∧
      (nextSlide gs? none none st).2 =
        [(s.id, indexUpdate (s.current_slide_index + 1))] ∧
      (nextSlide gs? none none st).1.allTeamsAlertDismissed = false) ∧
    ((slidesLenD gs? 1 : Int) - 1 < s.current_slide_index + 1 →
      nextSlide gs? none none st = (st, [])) := by
  have hnav : nextSlide gs? none none st = nextSlideNav gs? none s st := by
    unfold nextSlide
    rw [hdb]
    dsimp only
    rw [hslide]
    dsimp only
    by_cases hint : optStrTruthy slide.interactive_data_key &&
        jsStartsWith slide.type "interactive_"
    · rw [if_pos hint]
    · rw [if_neg hint]
  rw [hnav]
  unfold nextSlideNav
  constructor
  · intro hle
    rw [if_pos hle]
    exact ⟨rfl, rfl, rfl⟩
  · intro hgt
    rw [if_neg (not_le.mpr hgt)]

theorem nextSlide_increments_and_persists_witness :
    firstSlideState.dbSession = some firstSlideSession ∧
    slideAt (some twoSlideStructure) firstSlideSession.current_slide_index =
      some { id := 0, type := "image", interactive_data_key := none } ∧
    firstSlideSession.current_slide_index + 1 ≤
      (slidesLenD (some twoSlideStructure) 1 : Int) - 1 ∧
    ((nextSlide (some twoSlideStructure) none none firstSlideState).1.dbSession =
        some { firstSlideSession with
          current_slide_index := firstSlideSession.current_slide_index + 1 } ∧
      (nextSlide (some twoSlideStructure) none none firstSlideState).2 =
        [(firstSlideSession.id,
          indexUpdate (firstSlideSession.current_slide_index + 1))] ∧
      (nextSlide (some twoSlideStructure) none none firstSlideState).1.allTeamsAlertDismissed
        = false) :=
  ⟨rfl, by decide, by decide,
    (nextSlide_increments_and_persists (some twoSlideStructure) firstSlideState
      firstSlideSession { id := 0, type := "image", interactive_data_key := none }
      rfl (by decide)).1 (by decide)⟩

/-- C9: `selectSlideByIndex` rejects a target index that is negative or not
below the slide count without mutating anything: no persistence call is
made and the controller state — in particular the cached session and its
`current_slide_index` — is returned unchanged. -/
theorem selectSlideByIndex_rejects_out_of_range
    (gs? : Option GameStructure) (targetIndex : Int) (per : Option String)
    (st : CtrlState)
    (h : targetIndex < 0 ∨ targetIndex ≥ (slidesLenD gs? 0 : Int)) :
    selectSlideByIndex gs? targetIndex per st = (st, []) := by
  unfold selectSlideByIndex
  cases hdb : st.dbSession with
  | none => rfl
  | some s =>
      dsimp only
      rw [if_pos h]

theorem selectSlideByIndex_rejects_out_of_range_witness :
    ((-1 : Int) < 0 ∨ (-1 : Int) ≥ (slidesLenD (some twoSlideStructure) 0 : Int)) ∧
    selectSlideByIndex (some twoSlideStructure) (-1) none lastSlideState =
      (lastSlideState, []) ∧
    selectSlideByIndex (some twoSlideStructure) 2 none lastSlideState =
      (lastSlideState, []) :=
  ⟨Or.inl (by decide),
    selectSlideByIndex_rejects_out_of_range (some twoSlideStructure) (-1) none
      lastSlideState (Or.inl (by decide)),
    selectSlideByIndex_rejects_out_of_range (some twoSlideStructure) 2 none
      lastSlideState (Or.inr (by decide))⟩

/-! ### Frame preservation of navigation -/

/-- Every session field other than `current_slide_index`. -/
def sessionFrame (s : GameSession) :
    String × String × String × String × String × Bool × Bool ×
      List (Int × String) × Option WizardState × Option String × Option String :=
  (s.id, s.name, s.host_id, s.status, s.game_version, s.is_playing,
    s.is_complete, s.host_notes, s.wizard_state, s.class_name, s.grade_level)

/-- A navigation result preserves the frame: the cached session agrees with
the original on every field but `current_slide_index`, and every persistence
call it made carries an index-only update object. -/
def navPreservesFrame (r : CtrlState × List PersistCall) (st : CtrlState) : Prop :=
  r.1.dbSession.map sessionFrame = st.dbSession.map sessionFrame ∧
  ∀ c ∈ r.2, ∃ i, c.2 = indexUpdate i

theorem navPreservesFrame_id (st : CtrlState) : navPreservesFrame (st, []) st := by
  exact ⟨rfl, by simp⟩

theorem navPreservesFrame_alert (st : CtrlState) (a : Option HostAlert)
    (cs : List PersistCall) (hcs : ∀ c ∈ cs, ∃ i, c.2 = indexUpdate i) :
    navPreservesFrame ({ st with currentHostAlert := a }, cs) st :=
  ⟨rfl, hcs⟩

theorem navPreservesFrame_move (st : CtrlState) (s : GameSession) (j : Int)
    (a : Option HostAlert) (b : Bool) (cs : List PersistCall)
    (hdb : st.dbSession = some s)
    (hcs : ∀ c ∈ cs, ∃ i, c.2 = indexUpdate i) :
    navPreservesFrame
      ({ st with dbSession := some { s with current_slide_index := j }
                 currentHostAlert := a
                 allTeamsAlertDismissed := b }, cs) st := by
  refine ⟨?_, hcs⟩
  rw [hdb]
  rfl

theorem singleton_indexOnly (sid : String) (j : Int) :
    ∀ c ∈ [(sid, indexUpdate j)], ∃ i, c.2 = indexUpdate i := by
  intro c hc
  rw [List.mem_singleton] at hc
  exact ⟨j, by rw [hc]⟩

theorem nil_indexOnly : ∀ c ∈ ([] : List PersistCall), ∃ i, c.2 = indexUpdate i := by
  intro c hc
  exact absurd hc (List.not_mem_nil c)

theorem navPreservesFrame_nextSlideNav (gs? : Option GameStructure)
    (per : Option String) (s : GameSession) (st : CtrlState)
    (hdb : st.dbSession = some s) :
    navPreservesFrame (nextSlideNav gs? per s st) st := by
  unfold nextSlideNav
  dsimp only
  split_ifs with h
  · cases per with
    | none =>
        dsimp only
        exact navPreservesFrame_move st s _ _ _ _ hdb (singleton_indexOnly _ _)
    | some e =>
        dsimp only
        exact navPreservesFrame_alert st _ _ (singleton_indexOnly _ _)
  · exact navPreservesFrame_id st

/-- C10: every navigation operation — `nextSlide`, `previousSlide`,
`selectSlideByIndex` and the auto-advance performed by `clearHostAlert` on
dismissing the all-submitted alert — modifies only `current_slide_index`:
every other session field is left unchanged in the cached session, and every
persistence call carries an update object containing only
`current_slide_index`. -/
theorem navigation_touches_only_slide_index
    (gs? : Option GameStructure) (fin per : Option String) (target : Int)
    (st : CtrlState) :
    navPreservesFrame (nextSlide gs? fin per st) st ∧
    navPreservesFrame (previousSlide per st) st ∧
    navPreservesFrame (selectSlideByIndex gs? target per st) st ∧
    navPreservesFrame (clearHostAlert gs? per st) st := by
  refine ⟨?_, ?_, ?_, ?_⟩
  · unfold nextSlide
    cases hdb : st.dbSession with
    | none => exact navPreservesFrame_id st
    | some s =>
        dsimp only
        cases slideAt gs? s.current_slide_index with
        | none => exact navPreservesFrame_id st
        | some slide =>
            dsimp only
            split_ifs with hint
            · cases fin with
              | none => exact navPreservesFrame_nextSlideNav gs? per s st hdb
              | some e =>
                  dsimp only
                  exact ⟨by rw [hdb]; try rfl, nil_indexOnly⟩
            · exact navPreservesFrame_nextSlideNav gs? per s st hdb
  · unfold previousSlide
    cases hdb : st.dbSession with
    | none => exact navPreservesFrame_id st
    | some s =>
        dsimp only
        cases per with
        | none =>
            dsimp only
            exact ⟨by rw [hdb]; try rfl, singleton_indexOnly _ _⟩
        | some e =>
            dsimp only
            exact ⟨by rw [hdb]; try rfl, singleton_indexOnly _ _⟩
  · unfold selectSlideByIndex
    cases hdb : st.dbSession with
    | none => exact navPreservesFrame_id st
    | some s =>
        dsimp only
        split_ifs with h
        · exact navPreservesFrame_id st
        · cases per with
          | none =>
              dsimp only
              exact ⟨by rw [hdb]; try rfl, singleton_indexOnly _ _⟩
          | some e =>
              dsimp only
              exact ⟨by rw [hdb]; try rfl, singleton_indexOnly _ _⟩
  · unfold clearHostAlert
    cases halert : st.currentHostAlert with
    | none => exact navPreservesFrame_id st
    | some alert =>
        cases hdb : st.dbSession with
        | none => exact navPreservesFrame_id st
        | some s =>
            dsimp only
            split_ifs with htitle
            · cases per with
              | none =>
                  dsimp only
                  exact ⟨by rw [hdb]; try rfl, singleton_indexOnly _ _⟩
              | some e =>
                  dsimp only
                  exact ⟨by rw [hdb]; try rfl, singleton_indexOnly _ _⟩
            · exact ⟨by rw [hdb]; try rfl, nil_indexOnly⟩

/-! ### Session lifecycle claims -/

/-- An `updateSession` success decomposes into the field-wise merge on the
stored record; only the sessions table changes. -/
theorem updateSession_ok (sessionId : String) (u : SessionUpdate) (db : Db)
    (s' : GameSession) (db' : Db)
    (h : updateSession sessionId u db = .ok (s', db')) :
    ∃ s, db.sessions.lookup sessionId = some s ∧ s' = applySessionUpdate s u ∧
      db'.teams = db.teams ∧ db'.decisions = db.decisions := by
  unfold updateSession at h
  split_ifs at h with hid
  cases hl : db.sessions.lookup sessionId with
  | none =>
      rw [hl] at h
      exact absurd h (by simp)
  | some s =>
      rw [hl] at h
      refine ⟨s, rfl, ?_, ?_, ?_⟩ <;>
        · simp only [Except.ok.injEq, Prod.mk.injEq] at h
          obtain ⟨h1, h2⟩ := h
          first
            | exact h1.symm
            | rw [← h2]

/-- C5: `resetSessionProgress` yields a session with index 0, not playing,
not complete, empty host notes, cleared wizard state and status `active`,
regardless of the prior record; the teams and decisions tables are
untouched. -/
theorem resetSessionProgress_resets
    (sessionId : String) (db : Db) (s' : GameSession) (db' : Db)
    (h : resetSessionProgress sessionId db = .ok (s', db')) :
    s'.current_slide_index = 0 ∧ s'.is_playing = false ∧ s'.is_complete = false ∧
    s'.host_notes = [] ∧ s'.wizard_state = none ∧ s'.status = "active" ∧
    db'.teams = db.teams ∧ db'.decisions = db.decisions := by
  unfold resetSessionProgress at h
  obtain ⟨s, _, hs', hteams, hdec⟩ := updateSession_ok _ _ _ _ _ h
  subst hs'
  exact ⟨rfl, rfl, rfl, rfl, rfl, rfl, hteams, hdec⟩

/-- Fixture: a completed, mid-game session record and a store holding it. -/
def messySession : GameSession :=
  { id := "s1", name := "n", host_id := "h", status := "completed"
    game_version := "2.0_dd", current_slide_index := 4, is_playing := true
    is_complete := true, host_notes := [(0, "note")]
    wizard_state := some [("step", "3")], class_name := some "c"
    grade_level := some "g" }

def messyDb : Db :=
  { sessions := [("s1", messySession)]
    teams := [{ session_id := "s1", name := "T", passcode := "1234" }]
    decisions := [{ session_id := "s1", team_id := "t1", phase_id := "rd1-invest"
                    payload := "x" }] }

def resetSessionExpected : GameSession :=
  { messySession with
      current_slide_index := 0, is_playing := false, is_complete := false
      host_notes := [], wizard_state := none, status := "active" }

theorem resetSessionProgress_resets_witness :
    resetSessionProgress "s1" messyDb =
      .ok (resetSessionExpected, { messyDb with sessions := [("s1", resetSessionExpected)] }) ∧
    (resetSessionExpected.current_slide_index = 0 ∧
      resetSessionExpected.is_playing = false ∧
      resetSessionExpected.is_complete = false ∧
      resetSessionExpected.host_notes = [] ∧
      resetSessionExpected.wizard_state = none ∧
      resetSessionExpected.status = "active" ∧
      ({ messyDb with sessions := [("s1", resetSessionExpected)] } : Db).teams = messyDb.teams ∧
      ({ messyDb with sessions := [("s1", resetSessionExpected)] } : Db).decisions =
        messyDb.decisions) :=
  ⟨by decide,
    resetSessionProgress_resets "s1" messyDb resetSessionExpected
      { messyDb with sessions := [("s1", resetSessionExpected)] } (by decide)⟩

/-- C6: finalizing a draft with no explicit team list and `num_teams = 3`
creates exactly three teams with the sequential names `Team A`, `Team B`,
`Team C`, each passcode an integer in [1000, 9999] rendered in decimal, and
the resulting session has status `active` and no wizard state. -/
theorem finalize_three_default_teams
    (sessionId defaultName : String) (gd : NewGameData) (rands : Nat → ℚ)
    (db : Db) (s' : GameSession) (db' : Db)
    (hcfg : gd.teams_config.getD [] = [])
    (hnum : gd.num_teams = 3)
    (hr : ∀ i, 0 ≤ rands i ∧ rands i < 1)
    (h : finalizeDraftSession sessionId gd defaultName rands db = .ok (s', db')) :
    db'.teams = db.teams ++
      [defaultTeamRow sessionId rands 0, defaultTeamRow sessionId rands 1,
        defaultTeamRow sessionId rands 2] ∧
    (defaultTeamRow sessionId rands 0).name = "Team A" ∧
    (defaultTeamRow sessionId rands 1).name = "Team B" ∧
    (defaultTeamRow sessionId rands 2).name = "Team C" ∧
    (∀ i : Nat, ∃ k : ℤ, 1000 ≤ k ∧ k ≤ 9999 ∧
        (defaultTeamRow sessionId rands i).passcode = toString k) ∧
    s'.status = "active" ∧ s'.wizard_state = none := by
  unfold finalizeDraftSession at h
  cases hup : updateSession sessionId
      { status := some "active"
        name := some (if jsTrim gd.name = "" then defaultName else jsTrim gd.name)
        class_name := some (trimmedOrNull gd.class_name)
        grade_level := some (orNull gd.grade_level)
        game_version := some gd.game_version
        wizard_state := some none } db with
  | error e =>
      rw [hup] at h
      exact absurd h (by simp)
  | ok pr =>
      obtain ⟨u, db1⟩ := pr
      rw [hup] at h
      dsimp only at h
      rw [hcfg] at h
      simp only [List.length_nil, gt_iff_lt, Nat.lt_irrefl, if_false] at h
      rw [hnum] at h
      rw [if_pos (by norm_num : (3 : Int) > 0)] at h
      simp only [Except.ok.injEq, Prod.mk.injEq] at h
      obtain ⟨hs', hdb'⟩ := h
      obtain ⟨s, _, hu, hteams1, _⟩ := updateSession_ok _ _ _ _ _ hup
      have hrows : (List.range (3 : Int).toNat).map (defaultTeamRow sessionId rands) =
          [defaultTeamRow sessionId rands 0, defaultTeamRow sessionId rands 1,
            defaultTeamRow sessionId rands 2] := rfl
      refine ⟨?_, rfl, rfl, rfl, ?_, ?_, ?_⟩
      · rw [← hdb']
        dsimp only
        rw [hrows, hteams1]
      · intro i
        refine ⟨drawPasscode (rands i), ?_, ?_, rfl⟩
        · unfold drawPasscode
          rw [Int.le_floor]
          push_cast
          nlinarith [(hr i).1]
        · unfold drawPasscode
          have hlt : ⌊(1000 : ℚ) + rands i * 9000⌋ < 10000 := by
            rw [Int.floor_lt]
            push_cast
            nlinarith [(hr i).2]
          omega
      · rw [← hs', hu]
        rfl
      · rw [← hs', hu]
        rfl

/-- Fixtures for the finalize witness: a stored draft and a final payload
with no explicit team list and `num_teams = 3`. -/
def draftSession : GameSession :=
  { id := "s2", name := "Draft Game", host_id := "h", status := "draft"
    game_version := "2.0_dd", current_slide_index := 0, is_playing := false
    is_complete := false, host_notes := [], wizard_state := some [("step", "1")]
    class_name := none, grade_level := none }

def draftDb : Db := { sessions := [("s2", draftSession)], teams := [], decisions := [] }

def finalGd : NewGameData :=
  { name := "My Game", class_name := none, grade_level := none
    game_version := "2.0_dd", teams_config := none, num_teams := 3 }

def finalizedSession : GameSession :=
  { draftSession with status := "active", name := "My Game", wizard_state := none }

def finalizedDb : Db :=
  { sessions := [("s2", finalizedSession)]
    teams := [defaultTeamRow "s2" (fun _ => 0) 0, defaultTeamRow "s2" (fun _ => 0) 1,
              defaultTeamRow "s2" (fun _ => 0) 2]
    decisions := [] }

theorem finalize_three_default_teams_witness :
    finalGd.teams_config.getD [] = [] ∧
    finalGd.num_teams = 3 ∧
    (finalizedDb.teams = draftDb.teams ++
        [defaultTeamRow "s2" (fun _ => 0) 0, defaultTeamRow "s2" (fun _ => 0) 1,
          defaultTeamRow "s2" (fun _ => 0) 2] ∧
      (defaultTeamRow "s2" (fun _ => 0) 0).name = "Team A" ∧
      (defaultTeamRow "s2" (fun _ => 0) 1).name = "Team B" ∧
      (defaultTeamRow "s2" (fun _ => 0) 2).name = "Team C" ∧
      (∀ i : Nat, ∃ k : ℤ, 1000 ≤ k ∧ k ≤ 9999 ∧
          (defaultTeamRow "s2" (fun _ => 0) i).passcode = toString k) ∧
      finalizedSession.status = "active" ∧ finalizedSession.wizard_state = none) :=
  ⟨rfl, rfl,
    finalize_three_default_teams "s2" "Fallback" finalGd (fun _ => 0) draftDb
      finalizedSession finalizedDb rfl rfl
      (fun _ => ⟨le_refl 0, by norm_num⟩) rfl⟩

/-! ### Team-data reconciler claims -/

/-- C3: `resetTeamDecisionInDb` is phase-key exact.  In the optimistic local
update, only the (team, p) entry is removed: any (team, q) entry with
`q ≠ p` — such as an immediate-purchase record — is unchanged, the (team, p)
entry is gone, and the team entry is pruned only when the team had no phase
other than `p`.  In the final projection produced by the forced reload after
the phase-scoped delete, the (team, q) entry equals what a reload of the
pre-delete store would give, and the (team, p) entry is gone. -/
theorem resetDecision_phase_exact
    (db : Db) (sessionId teamId p q : String) (m : DecisionsMap)
    (r : ResetOutcome) (hq : q ≠ p)
    (h : resetTeamDecisionInDb db sessionId teamId p m = .ok r) :
    lookup2 r.localProjection teamId q = lookup2 m teamId q ∧
    lookup2 r.localProjection teamId p = none ∧
    (alookup r.localProjection teamId = none →
      ∀ q', q' ≠ p → lookup2 m teamId q' = none) ∧
    lookup2 r.finalProjection teamId q =
      lookup2 (structureDecisions (decisionsBySession db sessionId)) teamId q ∧
    lookup2 r.finalProjection teamId p = none := by
  unfold resetTeamDecisionInDb at h
  split_ifs at h with hids
  simp only [Except.ok.injEq] at h
  subst h
  dsimp only
  refine ⟨lookup2_applyLocalReset_other m teamId p q hq,
    lookup2_applyLocalReset_self m teamId p,
    fun hnone => applyLocalReset_prune m teamId p hnone, ?_, ?_⟩
  · unfold structureDecisions decisionsBySession dbDecisionsDelete
    dsimp only
    have hcomm :
        ((db.decisions.filter fun d =>
            ¬(d.session_id = sessionId ∧ d.team_id = teamId ∧ d.phase_id = p)).filter
          fun d => d.session_id = sessionId) =
        ((db.decisions.filter fun d => d.session_id = sessionId).filter
          fun d => ¬(d.session_id = sessionId ∧ d.team_id = teamId ∧ d.phase_id = p)) := by
      rw [List.filter_filter, List.filter_filter]
      apply List.filter_congr
      intro d _
      rw [Bool.and_comm]
    rw [hcomm]
    refine lookup2_foldl_filter _ _ teamId q ?_ [] [] rfl
    intro d hd ht hqd
    simp only [List.mem_filter, decide_eq_true_eq] at hd
    simp only [decide_eq_true_eq]
    intro ⟨_, _, hphase⟩
    exact hq (hqd.trans hphase ▸ rfl)
  · unfold structureDecisions decisionsBySession dbDecisionsDelete
    dsimp only
    refine Eq.trans (lookup2_foldl_notmem _ teamId p ?_ []) rfl
    intro d hd hand
    simp only [List.mem_filter, decide_eq_true_eq] at hd
    obtain ⟨⟨_, hP⟩, hS⟩ := hd
    exact hP ⟨hS, hand.1.symm, hand.2.symm⟩

/-- Fixtures for the reset witness: one ordinary decision and one
immediate-purchase record for the same team and round. -/
def decisionInvest : DecisionRow :=
  { session_id := "s1", team_id := "t1", phase_id := "rd1-invest", payload := "x" }

def decisionImmediate : DecisionRow :=
  { session_id := "s1", team_id := "t1", phase_id := "rd1-invest-immediate"
    payload := "y" }

def decisionsDb : Db :=
  { sessions := [], teams := [], decisions := [decisionInvest, decisionImmediate] }

def decisionsProjection : DecisionsMap :=
  structureDecisions [decisionInvest, decisionImmediate]

def resetOutcomeFix : ResetOutcome :=
  { db := dbDecisionsDelete decisionsDb "s1" "t1" "rd1-invest"
    localProjection := applyLocalReset decisionsProjection "t1" "rd1-invest"
    finalProjection := structureDecisions
      (decisionsBySession (dbDecisionsDelete decisionsDb "s1" "t1" "rd1-invest") "s1") }

theorem resetDecision_phase_exact_witness :
    ("rd1-invest-immediate" : String) ≠ "rd1-invest" ∧
    resetTeamDecisionInDb decisionsDb "s1" "t1" "rd1-invest" decisionsProjection =
      .ok resetOutcomeFix ∧
    (lookup2 resetOutcomeFix.localProjection "t1" "rd1-invest-immediate" =
        lookup2 decisionsProjection "t1" "rd1-invest-immediate" ∧
      lookup2 resetOutcomeFix.localProjection "t1" "rd1-invest" = none ∧
      (alookup resetOutcomeFix.localProjection "t1" = none →
        ∀ q', q' ≠ "rd1-invest" → lookup2 decisionsProjection "t1" q' = none) ∧
      lookup2 resetOutcomeFix.finalProjection "t1" "rd1-invest-immediate" =
        lookup2 (structureDecisions (decisionsBySession decisionsDb "s1")) "t1"
          "rd1-invest-immediate" ∧
      lookup2 resetOutcomeFix.finalProjection "t1" "rd1-invest" = none) :=
  ⟨by decide, rfl,
    resetDecision_phase_exact decisionsDb "s1" "t1" "rd1-invest"
      "rd1-invest-immediate" decisionsProjection resetOutcomeFix (by decide) rfl⟩

/-- The record carried by an insert/update feed event. -/
def kpiEventRecord : KpiEvent → Option KpiRow
  | .insert rec => some rec
  | .update rec => some rec
  | .delete _ => none

/-- C8: two round-data insert/update feed events with distinct (team, round)
keys commute: applying them to the projection in either order yields the
same projection (each upserts exactly its own slot from the event payload). -/
theorem kpi_feed_events_commute
    (e₁ e₂ : KpiEvent) (r₁ r₂ : KpiRow) (m : KpiMap)
    (h₁ : kpiEventRecord e₁ = some r₁) (h₂ : kpiEventRecord e₂ = some r₂)
    (hkeys : r₁.team_id ≠ r₂.team_id ∨ r₁.round_number ≠ r₂.round_number)
    (t : String) (rd : Int) :
    lookup2 (applyKpiEvent (applyKpiEvent m e₁) e₂) t rd =
      lookup2 (applyKpiEvent (applyKpiEvent m e₂) e₁) t rd := by
  have key :
      lookup2 (upsert2 (upsert2 m r₁.team_id r₁.round_number r₁)
        r₂.team_id r₂.round_number r₂) t rd =
      lookup2 (upsert2 (upsert2 m r₂.team_id r₂.round_number r₂)
        r₁.team_id r₁.round_number r₁) t rd := by
    rw [lookup2_upsert2, lookup2_upsert2, lookup2_upsert2, lookup2_upsert2]
    by_cases hA : t = r₁.team_id ∧ rd = r₁.round_number <;>
      by_cases hB : t = r₂.team_id ∧ rd = r₂.round_number
    · exfalso
      rcases hkeys with hk | hk
      · exact hk (hA.1.symm.trans hB.1)
      · exact hk (hA.2.symm.trans hB.2)
    · have hcond : ¬(r₁.team_id = r₂.team_id ∧ r₁.round_number = r₂.round_number) := by
        rintro ⟨ht', hr'⟩
        rcases hkeys with hk | hk
        · exact hk ht'
        · exact hk hr'
      simp [hA, hB, hcond]
    · have hcond : ¬(r₂.team_id = r₁.team_id ∧ r₂.round_number = r₁.round_number) := by
        rintro ⟨ht', hr'⟩
        rcases hkeys with hk | hk
        · exact hk ht'.symm
        · exact hk hr'.symm
      simp [hA, hB, hcond]
    · simp [hA, hB]
  cases e₁ with
  | delete o => simp [kpiEventRecord] at h₁
  | insert rec₁ =>
      simp only [kpiEventRecord, Option.some.injEq] at h₁
      subst h₁
      cases e₂ with
      | delete o => simp [kpiEventRecord] at h₂
      | insert rec₂ =>
          simp only [kpiEventRecord, Option.some.injEq] at h₂
          subst h₂
          exact key
      | update rec₂ =>
          simp only [kpiEventRecord, Option.some.injEq] at h₂
          subst h₂
          exact key
  | update rec₁ =>
      simp only [kpiEventRecord, Option.some.injEq] at h₁
      subst h₁
      cases e₂ with
      | delete o => simp [kpiEventRecord] at h₂
      | insert rec₂ =>
          simp only [kpiEventRecord, Option.some.injEq] at h₂
          subst h₂
          exact key
      | update rec₂ =>
          simp only [kpiEventRecord, Option.some.injEq] at h₂
          subst h₂
          exact key

/-- Fixtures for the feed-commutation witness. -/
def kpiRow1 : KpiRow := { team_id := "T", round_number := 1, payload := "X" }

def kpiRow2 : KpiRow := { team_id := "T", round_number := 2, payload := "Y" }

theorem kpi_feed_events_commute_witness :
    kpiEventRecord (.insert kpiRow1) = some kpiRow1 ∧
    kpiEventRecord (.insert kpiRow2) = some kpiRow2 ∧
    kpiRow1.round_number ≠ kpiRow2.round_number ∧
    lookup2 (applyKpiEvent (applyKpiEvent [] (.insert kpiRow1)) (.insert kpiRow2)) "T" 1 =
      lookup2 (applyKpiEvent (applyKpiEvent [] (.insert kpiRow2)) (.insert kpiRow1)) "T" 1 :=
  ⟨rfl, rfl, by decide,
    kpi_feed_events_commute (.insert kpiRow1) (.insert kpiRow2) kpiRow1 kpiRow2 []
      rfl rfl (Or.inr (by decide)) "T" 1⟩

end ClassroomSim
